import Mathlib

/-!
Shallow embedding of `main.py` of the classroom-booking admin site:
session-based login with role-gated access and CRUD management of
classroom records.  The web handlers are translated from `src/main.py`;
the two persistence modules (`user_db`, `classroom_db`) are external
collaborators whose CRUD contracts are modelled from the specification.
-/

/-- Role enum from `user_db` (`Role`): either `Admin` or `Student`. -/
inductive Role where
  | Admin
  | Student
deriving DecidableEq, Repr

/-- A stored User record: plaintext password and role
(`user_id` is the key in the store). -/
structure User where
  password : String
  role : Role
deriving DecidableEq, Repr

/-- The User Store state: an association list from `user_id` to record. -/
abbrev UserStore := List (String × User)

/-- Modelled from the spec: `user_db.get_user(id) -> User|None`
(`user_db.py` is not under `src/`); simple keyed lookup. -/
def get_user (store : UserStore) (uid : String) : Option User :=
  match store with
  | [] => none
  | (id, u) :: rest => if id = uid then some u else get_user rest uid

/-- Modelled from the spec: `user_db.register_user(id, password, role) -> bool`
(`user_db.py` is not under `src/`); reports `false` and leaves the store
unchanged when the id is already taken, otherwise records the new user. -/
def register_user (store : UserStore) (uid password : String) (role : Role) :
    Bool × UserStore :=
  match get_user store uid with
  | some _ => (false, store)
  | none => (true, store ++ [(uid, ⟨password, role⟩)])

/-- A Classroom record: name, location, capacity, and equipment
represented as a mapping from flag name to boolean. -/
structure Classroom where
  name : String
  location : String
  capacity : Int
  equipment : List (String × Bool)
deriving DecidableEq, Repr

/-- The Classroom Store state: next id to assign, and an association
list from classroom id to record. -/
structure ClassroomStore where
  nextId : Nat
  rooms : List (Nat × Classroom)
deriving DecidableEq, Repr

/-- Keyed lookup in the classroom association list. -/
def lookup_room (rooms : List (Nat × Classroom)) (cid : Nat) : Option Classroom :=
  match rooms with
  | [] => none
  | (i, c) :: rest => if i = cid then some c else lookup_room rest cid

/-- Modelled from the spec: `classroom_db.get_classroom(id)`
(`classroom_db.py` is not under `src/`). -/
def get_classroom (s : ClassroomStore) (cid : Nat) : Option Classroom :=
  lookup_room s.rooms cid

/-- Modelled from the spec: `classroom_db.create_classroom` assigns a fresh
unique id, stores the record, and returns the id. -/
def create_classroom (s : ClassroomStore) (name location : String)
    (capacity : Int) (equipment : List (String × Bool)) :
    Nat × ClassroomStore :=
  (s.nextId,
   { nextId := s.nextId + 1,
     rooms := s.rooms ++ [(s.nextId, ⟨name, location, capacity, equipment⟩)] })

/-- Replace the record stored under `cid`. -/
def update_rooms (rooms : List (Nat × Classroom)) (cid : Nat) (c : Classroom) :
    List (Nat × Classroom) :=
  rooms.map (fun p => if p.1 = cid then (cid, c) else p)

/-- Modelled from the spec: `classroom_db.update_classroom` reports `false`
and leaves the store unchanged when no record has id `cid`, otherwise
replaces the record. -/
def update_classroom (s : ClassroomStore) (cid : Nat) (name location : String)
    (capacity : Int) (equipment : List (String × Bool)) :
    Bool × ClassroomStore :=
  match get_classroom s cid with
  | some _ =>
      (true, { s with rooms := update_rooms s.rooms cid ⟨name, location, capacity, equipment⟩ })
  | none => (false, s)

/-- Modelled from the spec: `classroom_db.delete_classroom` reports `false`
and leaves the store unchanged when no record has id `cid`, otherwise
removes the record. -/
def delete_classroom (s : ClassroomStore) (cid : Nat) : Bool × ClassroomStore :=
  match get_classroom s cid with
  | some _ => (true, { s with rooms := s.rooms.filter (fun p => p.1 != cid) })
  | none => (false, s)

/-- The signed-cookie session: may hold a `user_id` and a `role`
(both absent in a fresh session, both written at login). -/
structure Session where
  user_id : Option String
  role : Option Role
deriving DecidableEq, Repr

/-- An authenticated caller as returned by the auth guards:
the dict `{user_id, role}` built by `get_current_user`. -/
structure CurrentUser where
  user_id : String
  role : Role
deriving DecidableEq, Repr

/-- A handler outcome: a redirect with explicit status code, a rendered
template (HTTP 200) with its optional inline error message, or an
`HTTPException` with status code and detail. -/
inductive Response where
  | redirect (url : String) (code : Nat)
  | template (name : String) (errorMessage : Option String)
  | err (code : Nat) (detail : String)
deriving DecidableEq, Repr

/-- The HTTP status code carried by a response
(a rendered template is an HTTP 200 response). -/
def Response.statusCode : Response → Nat
  | .template _ _ => 200
  | .redirect _ c => c
  | .err c _ => c

/-- Whether the response is a redirect. -/
def Response.isRedirect : Response → Bool
  | .redirect _ _ => true
  | _ => false

/-- `get_current_user` from `main.py`: reads `user_id` from the session
(Python `if not user_id` also treats the empty string as absent),
re-fetches the User record from the store, and returns
`{user_id, role}` with the role taken from the fetched record. -/
def get_current_user (ustore : UserStore) (session : Session) :
    Option CurrentUser :=
  match session.user_id with
  | none => none
  | some uid =>
      if uid = "" then none
      else
        match get_user ustore uid with
        | some u => some ⟨uid, u.role⟩
        | none => none

/-- `require_auth` from `main.py`: raises `HTTPException(401)` when
`get_current_user` yields no user. -/
def require_auth (ustore : UserStore) (session : Session) :
    Except (Nat × String) CurrentUser :=
  match get_current_user ustore session with
  | none => .error (401, "로그인이 필요합니다.")
  | some u => .ok u

/-- `require_admin` from `main.py`: calls `require_auth`, then raises
`HTTPException(403)` when the role is not Admin. -/
def require_admin (ustore : UserStore) (session : Session) :
    Except (Nat × String) CurrentUser :=
  match require_auth ustore session with
  | .error e => .error e
  | .ok u => if u.role ≠ Role.Admin then .error (403, "관리자 권한이 필요합니다.") else .ok u

/-- `post_register` from `main.py`: rejects empty id or password with a
form re-render, otherwise calls the store and either redirects (303) to
`/login` or re-renders with a duplicate-id error.  Returns the response
and the resulting User Store. -/
def post_register (ustore : UserStore) (user_id password : String)
    (role : Role) : Response × UserStore :=
  if user_id = "" ∨ password = "" then
    (.template "register.html" (some "ID와 비밀번호를 모두 입력해야 합니다."), ustore)
  else
    match register_user ustore user_id password role with
    | (true, ustore') => (.redirect "/login" 303, ustore')
    | (false, ustore') =>
        (.template "register.html" (some (s!"'{user_id}'는 이미 사용 중인 ID입니다.")), ustore')

/-- `post_login` from `main.py`: looks the user up; on absent user or
password mismatch re-renders the login form with the generic error;
on success writes `user_id` and the stored role into the session and
redirects (303) to `/`.  Returns the response and resulting session. -/
def post_login (ustore : UserStore) (session : Session)
    (user_id password : String) : Response × Session :=
  match get_user ustore user_id with
  | none =>
      (.template "login.html" (some "ID 또는 비밀번호가 올바르지 않습니다."), session)
  | some u =>
      if u.password ≠ password then
        (.template "login.html" (some "ID 또는 비밀번호가 올바르지 않습니다."), session)
      else
        (.redirect "/" 303, ⟨some user_id, some u.role⟩)

/-- `logout` from `main.py`: clears the session and redirects (302). -/
def logout (_session : Session) : Response × Session :=
  (.redirect "/login" 302, ⟨none, none⟩)

/-- GET `/classrooms/create` (`create_classroom_form` in `main.py`):
admin-gated empty form. -/
def create_classroom_form (ustore : UserStore) (session : Session) : Response :=
  match require_admin ustore session with
  | .error (c, d) => .err c d
  | .ok _ => .template "classroom_form.html" none

/-- POST `/classrooms/create` (`create_classroom_post` in `main.py`):
admin-gated; builds the equipment mapping containing only the flags
submitted as true, stores the new classroom, redirects (303) to the
list.  Returns the response and the resulting Classroom Store. -/
def create_classroom_post (ustore : UserStore) (session : Session)
    (cstore : ClassroomStore) (name location : String) (capacity : Int)
    (projector whiteboard : Bool) : Response × ClassroomStore :=
  match require_admin ustore session with
  | .error (c, d) => (.err c d, cstore)
  | .ok _ =>
      let equipment : List (String × Bool) :=
        (if projector then [("projector", true)] else []) ++
        (if whiteboard then [("whiteboard", true)] else [])
      let r := create_classroom cstore name location capacity equipment
      (.redirect "/classrooms" 303, r.2)

/-- GET `/classrooms/{id}/edit` (`edit_classroom_form` in `main.py`):
admin-gated; 404 when the classroom is absent, else the edit form. -/
def edit_classroom_form (ustore : UserStore) (session : Session)
    (cstore : ClassroomStore) (classroom_id : Nat) : Response :=
  match require_admin ustore session with
  | .error (c, d) => .err c d
  | .ok _ =>
      match get_classroom cstore classroom_id with
      | none => .err 404 "강의실을 찾을 수 없습니다."
      | some _ => .template "classroom_form.html" none

/-- POST `/classrooms/{id}/edit` (`edit_classroom_post` in `main.py`):
admin-gated; builds the equipment mapping containing only the flags
submitted as true, calls the store update, 404 when it reports no such
id, else redirects (303) to the list. -/
def edit_classroom_post (ustore : UserStore) (session : Session)
    (cstore : ClassroomStore) (classroom_id : Nat) (name location : String)
    (capacity : Int) (projector whiteboard : Bool) :
    Response × ClassroomStore :=
  match require_admin ustore session with
  | .error (c, d) => (.err c d, cstore)
  | .ok _ =>
      let equipment : List (String × Bool) :=
        (if projector then [("projector", true)] else []) ++
        (if whiteboard then [("whiteboard", true)] else [])
      match update_classroom cstore classroom_id name location capacity equipment with
      | (false, cstore') => (.err 404 "강의실을 찾을 수 없습니다.", cstore')
      | (true, cstore') => (.redirect "/classrooms" 303, cstore')

/-- POST `/classrooms/{id}/delete` (`delete_classroom_post` in
`main.py`): admin-gated; calls the store delete, 404 when it reports no
such id, else redirects (303) to the list. -/
def delete_classroom_post (ustore : UserStore) (session : Session)
    (cstore : ClassroomStore) (classroom_id : Nat) :
    Response × ClassroomStore :=
  match require_admin ustore session with
  | .error (c, d) => (.err c d, cstore)
  | .ok _ =>
      match delete_classroom cstore classroom_id with
      | (false, cstore') => (.err 404 "강의실을 찾을 수 없습니다.", cstore')
      | (true, cstore') => (.redirect "/classrooms" 303, cstore')

/-- The equipment mapping the spec prescribes: exactly the flags
submitted as true, absent flags omitted, never a key with value false. -/
def equipFlags (projector whiteboard : Bool) : List (String × Bool) :=
  (if projector then [("projector", true)] else []) ++
  (if whiteboard then [("whiteboard", true)] else [])

/-- Claim C1: every admin-only classroom endpoint (GET/POST create,
GET/POST edit, POST delete) fails with HTTP 401 when the session yields
no authenticated user, and with HTTP 403 when it yields a user whose
role is not Admin, before reaching the handler body. -/
theorem C1_admin_guard (ustore : UserStore) (session : Session)
    (cstore : ClassroomStore) (cid : Nat) (name location : String)
    (capacity : Int) (p w : Bool) :
    (get_current_user ustore session = none →
      create_classroom_form ustore session = .err 401 "로그인이 필요합니다." ∧
      (create_classroom_post ustore session cstore name location capacity p w).1 =
        .err 401 "로그인이 필요합니다." ∧
      edit_classroom_form ustore session cstore cid = .err 401 "로그인이 필요합니다." ∧
      (edit_classroom_post ustore session cstore cid name location capacity p w).1 =
        .err 401 "로그인이 필요합니다." ∧
      (delete_classroom_post ustore session cstore cid).1 = .err 401 "로그인이 필요합니다.") ∧
    (∀ u, get_current_user ustore session = some u → u.role ≠ Role.Admin →
      create_classroom_form ustore session = .err 403 "관리자 권한이 필요합니다." ∧
      (create_classroom_post ustore session cstore name location capacity p w).1 =
        .err 403 "관리자 권한이 필요합니다." ∧
      edit_classroom_form ustore session cstore cid = .err 403 "관리자 권한이 필요합니다." ∧
      (edit_classroom_post ustore session cstore cid name location capacity p w).1 =
        .err 403 "관리자 권한이 필요합니다." ∧
      (delete_classroom_post ustore session cstore cid).1 = .err 403 "관리자 권한이 필요합니다.") := by
  constructor
  · intro h
    simp [create_classroom_form, create_classroom_post, edit_classroom_form,
      edit_classroom_post, delete_classroom_post, require_admin, require_auth, h]
  · intro u hu hrole
    simp [create_classroom_form, create_classroom_post, edit_classroom_form,
      edit_classroom_post, delete_classroom_post, require_admin, require_auth, hu, hrole]

/-- Witness for C1 at concrete inputs: an empty session gives 401 and a
Student session gives 403 on the create-form endpoint. -/
theorem C1_admin_guard_witness :
    create_classroom_form ([] : UserStore) ⟨none, none⟩ = .err 401 "로그인이 필요합니다." ∧
    create_classroom_form [("bob", ⟨"pw", Role.Student⟩)]
      ⟨some "bob", some Role.Student⟩ = .err 403 "관리자 권한이 필요합니다." := by
  constructor
  · exact ((C1_admin_guard [] ⟨none, none⟩ ⟨0, []⟩ 0 "n" "l" 1 true false).1 rfl).1
  · exact ((C1_admin_guard [("bob", ⟨"pw", Role.Student⟩)] ⟨some "bob", some Role.Student⟩
      ⟨0, []⟩ 0 "n" "l" 1 true false).2 ⟨"bob", Role.Student⟩ rfl (by decide)).1

/-- Counterexample to claim C2: the guards do not use the role recorded
in the session at login time.  Here the session still carries the
Student role from login, but the store now records Admin; the guard
authorizes with the new Admin role instead of failing with 403. -/
theorem C2_stale_role_counterexample :
    require_admin [("alice", ⟨"pw", Role.Admin⟩)] ⟨some "alice", some Role.Student⟩ =
      .ok ⟨"alice", Role.Admin⟩ ∧
    create_classroom_form [("alice", ⟨"pw", Role.Admin⟩)]
      ⟨some "alice", some Role.Student⟩ = .template "classroom_form.html" none :=
  ⟨rfl, rfl⟩

/-- Amended C2: the role used by the auth guards on each request is the
role currently recorded in the User Store, re-fetched on every request;
the role stored in the session at login is ignored by the guards, so a
post-login role change takes effect immediately on the existing
session. -/
theorem C2_live_role (ustore : UserStore) (uid : String) (sr : Option Role)
    (u : User) (hne : uid ≠ "") (hu : get_user ustore uid = some u) :
    get_current_user ustore ⟨some uid, sr⟩ = some ⟨uid, u.role⟩ ∧
    (u.role = Role.Admin → require_admin ustore ⟨some uid, sr⟩ = .ok ⟨uid, u.role⟩) ∧
    (u.role ≠ Role.Admin →
      require_admin ustore ⟨some uid, sr⟩ = .error (403, "관리자 권한이 필요합니다.")) := by
  have hcur : get_current_user ustore ⟨some uid, sr⟩ = some ⟨uid, u.role⟩ := by
    simp [get_current_user, hne, hu]
  refine ⟨hcur, ?_, ?_⟩
  · intro hr
    simp [require_admin, require_auth, hcur, hr]
  · intro hr
    simp [require_admin, require_auth, hcur, hr]

/-- Witness for the amended C2: the session says Student, the store says
Admin, and the guard answers with Admin. -/
theorem C2_live_role_witness :
    get_current_user [("alice", ⟨"pw", Role.Admin⟩)] ⟨some "alice", some Role.Student⟩ =
      some ⟨"alice", Role.Admin⟩ ∧
    require_admin [("alice", ⟨"pw", Role.Admin⟩)] ⟨some "alice", some Role.Student⟩ =
      .ok ⟨"alice", Role.Admin⟩ := by
  have h := C2_live_role [("alice", ⟨"pw", Role.Admin⟩)] "alice" (some Role.Student)
    ⟨"pw", Role.Admin⟩ (by decide) rfl
  exact ⟨h.1, h.2.1 rfl⟩

/-- Counterexample to claim C3: when the session carries the
empty-string user id, the code treats it as absent (Python falsiness)
and returns None without consulting the store, even though a matching
User record exists there. -/
theorem C3_current_user_counterexample :
    get_user [("", ⟨"pw", Role.Admin⟩)] "" = some ⟨"pw", Role.Admin⟩ ∧
    get_current_user [("", ⟨"pw", Role.Admin⟩)] ⟨some "", none⟩ = none :=
  ⟨rfl, rfl⟩

/-- Amended C3: current_user returns None when the session contains no
user_id or the empty-string user_id; for a non-empty user_id it
re-fetches the User record from the store, returns None when the user
no longer exists, and otherwise returns the pair of the session user_id
and the role taken from the fetched store record. -/
theorem C3_current_user (ustore : UserStore) (session : Session) :
    (session.user_id = none → get_current_user ustore session = none) ∧
    (session.user_id = some "" → get_current_user ustore session = none) ∧
    (∀ uid, session.user_id = some uid → uid ≠ "" →
      (get_user ustore uid = none → get_current_user ustore session = none) ∧
      (∀ u, get_user ustore uid = some u →
        get_current_user ustore session = some ⟨uid, u.role⟩)) := by
  refine ⟨?_, ?_, ?_⟩
  · intro h; simp [get_current_user, h]
  · intro h; simp [get_current_user, h]
  · intro uid h hne
    refine ⟨?_, ?_⟩
    · intro habs; simp [get_current_user, h, hne, habs]
    · intro u hu; simp [get_current_user, h, hne, hu]

/-- Witness for the amended C3: a session naming an existing user gets
the store's role back, and a session naming a vanished user gets None. -/
theorem C3_current_user_witness :
    get_current_user [("alice", ⟨"pw", Role.Student⟩)] ⟨some "alice", none⟩ =
      some ⟨"alice", Role.Student⟩ ∧
    get_current_user ([] : UserStore) ⟨some "alice", none⟩ = none := by
  constructor
  · exact ((C3_current_user [("alice", ⟨"pw", Role.Student⟩)] ⟨some "alice", none⟩).2.2
      "alice" rfl (by decide)).2 ⟨"pw", Role.Student⟩ rfl
  · exact ((C3_current_user [] ⟨some "alice", none⟩).2.2 "alice" rfl (by decide)).1 rfl

/-- Claim C4: every failed login — unknown user id or wrong password —
re-renders the login form with the identical generic error message and
leaves the session unchanged, so the response does not reveal whether
the user id exists. -/
theorem C4_login_failure_uniform (ustore : UserStore) (session : Session)
    (uid pw : String)
    (h : get_user ustore uid = none ∨
         ∃ u, get_user ustore uid = some u ∧ u.password ≠ pw) :
    post_login ustore session uid pw =
      (.template "login.html" (some "ID 또는 비밀번호가 올바르지 않습니다."), session) := by
  rcases h with h | ⟨u, hu, hpw⟩
  · simp [post_login, h]
  · simp [post_login, hu, hpw]

/-- Witness for C4: the unknown-id failure and the wrong-password
failure produce byte-identical responses. -/
theorem C4_login_failure_uniform_witness :
    post_login [("alice", ⟨"pw", Role.Admin⟩)] ⟨none, none⟩ "nosuch" "x" =
      (.template "login.html" (some "ID 또는 비밀번호가 올바르지 않습니다."), ⟨none, none⟩) ∧
    post_login [("alice", ⟨"pw", Role.Admin⟩)] ⟨none, none⟩ "alice" "wrong" =
      (.template "login.html" (some "ID 또는 비밀번호가 올바르지 않습니다."), ⟨none, none⟩) := by
  constructor
  · exact C4_login_failure_uniform [("alice", ⟨"pw", Role.Admin⟩)] ⟨none, none⟩
      "nosuch" "x" (Or.inl rfl)
  · exact C4_login_failure_uniform [("alice", ⟨"pw", Role.Admin⟩)] ⟨none, none⟩
      "alice" "wrong" (Or.inr ⟨⟨"pw", Role.Admin⟩, rfl, by decide⟩)

/-- Claim C5: a login with an existing user id and matching password
writes the submitted user_id and the role from the stored User record
into the session and redirects to / with HTTP 303. -/
theorem C5_login_success (ustore : UserStore) (session : Session)
    (uid pw : String) (u : User) (hu : get_user ustore uid = some u)
    (hpw : u.password = pw) :
    post_login ustore session uid pw = (.redirect "/" 303, ⟨some uid, some u.role⟩) := by
  simp [post_login, hu, hpw]

/-- Witness for C5: logging in as a stored Student populates the
session with the stored Student role. -/
theorem C5_login_success_witness :
    post_login [("alice", ⟨"pw", Role.Student⟩)] ⟨none, none⟩ "alice" "pw" =
      (.redirect "/" 303, ⟨some "alice", some Role.Student⟩) :=
  C5_login_success [("alice", ⟨"pw", Role.Student⟩)] ⟨none, none⟩ "alice" "pw"
    ⟨"pw", Role.Student⟩ rfl rfl

/-- Claim C6: with non-empty user_id and password, a duplicate id makes
the register endpoint re-render the form with a duplicate-id error as
HTTP 200 (no redirect), and a fresh id makes it redirect to /login with
HTTP 303. -/
theorem C6_register_outcome (ustore : UserStore) (uid pw : String)
    (role : Role) (hu : uid ≠ "") (hp : pw ≠ "") :
    (∀ u, get_user ustore uid = some u →
      post_register ustore uid pw role =
        (.template "register.html" (some (s!"'{uid}'는 이미 사용 중인 ID입니다.")), ustore) ∧
      (post_register ustore uid pw role).1.statusCode = 200 ∧
      (post_register ustore uid pw role).1.isRedirect = false) ∧
    (get_user ustore uid = none →
      post_register ustore uid pw role =
        (.redirect "/login" 303, ustore ++ [(uid, ⟨pw, role⟩)])) := by
  constructor
  · intro u hdup
    simp [post_register, register_user, hu, hp, hdup, Response.statusCode,
      Response.isRedirect]
  · intro hfresh
    simp [post_register, register_user, hu, hp, hfresh]

/-- Witness for C6: registering a taken id re-renders the form, and
registering a fresh id redirects to /login with 303. -/
theorem C6_register_outcome_witness :
    post_register [("alice", ⟨"pw", Role.Admin⟩)] "alice" "x" Role.Student =
      (.template "register.html" (some "'alice'는 이미 사용 중인 ID입니다."), [("alice", ⟨"pw", Role.Admin⟩)]) ∧
    post_register ([] : UserStore) "bob" "x" Role.Student =
      (.redirect "/login" 303, [("bob", ⟨"x", Role.Student⟩)]) := by
  constructor
  · exact (((C6_register_outcome [("alice", ⟨"pw", Role.Admin⟩)] "alice" "x" Role.Student
      (by decide) (by decide)).1 ⟨"pw", Role.Admin⟩ rfl)).1
  · exact (C6_register_outcome [] "bob" "x" Role.Student (by decide) (by decide)).2 rfl

/-- Claim C7: a register request with an empty user_id or an empty
password re-renders the registration form with an error as HTTP 200
(no redirect) and leaves the User Store unchanged, never reaching the
store's register call. -/
theorem C7_register_empty_fields (ustore : UserStore) (uid pw : String)
    (role : Role) (h : uid = "" ∨ pw = "") :
    post_register ustore uid pw role =
      (.template "register.html" (some "ID와 비밀번호를 모두 입력해야 합니다."), ustore) ∧
    (post_register ustore uid pw role).1.statusCode = 200 ∧
    (post_register ustore uid pw role).1.isRedirect = false := by
  have hresp : post_register ustore uid pw role =
      (.template "register.html" (some "ID와 비밀번호를 모두 입력해야 합니다."), ustore) := by
    rcases h with h | h <;> simp [post_register, h]
  exact ⟨hresp, by rw [hresp]; rfl, by rw [hresp]; rfl⟩

/-- Witness for C7: an empty password re-renders the form and leaves
the one-user store exactly as it was. -/
theorem C7_register_empty_fields_witness :
    post_register [("alice", ⟨"pw", Role.Admin⟩)] "bob" "" Role.Student =
      (.template "register.html" (some "ID와 비밀번호를 모두 입력해야 합니다."), [("alice", ⟨"pw", Role.Admin⟩)]) :=
  (C7_register_empty_fields [("alice", ⟨"pw", Role.Admin⟩)] "bob" "" Role.Student
    (Or.inr rfl)).1

/-- Claim C8: the equipment mapping an admin create or edit passes to
the Classroom Store is exactly the flags submitted as true: a key is
present exactly when its flag was submitted true, its value is then
true, and no key is ever present with value false; in particular
projector=true, whiteboard=false yields exactly the one-entry mapping. -/
theorem C8_equipment_exact (ustore : UserStore) (session : Session)
    (cstore : ClassroomStore) (cid : Nat) (name location : String)
    (capacity : Int) (p w : Bool) (cu : CurrentUser)
    (hadm : require_admin ustore session = .ok cu) :
    ((create_classroom_post ustore session cstore name location capacity p w).2.rooms =
      cstore.rooms ++ [(cstore.nextId, ⟨name, location, capacity, equipFlags p w⟩)]) ∧
    (∀ c, get_classroom cstore cid = some c →
      (edit_classroom_post ustore session cstore cid name location capacity p w).2.rooms =
        update_rooms cstore.rooms cid ⟨name, location, capacity, equipFlags p w⟩) ∧
    (∀ k v, (k, v) ∈ equipFlags p w → v = true) ∧
    (("projector", true) ∈ equipFlags p w ↔ p = true) ∧
    (("whiteboard", true) ∈ equipFlags p w ↔ w = true) ∧
    equipFlags true false = [("projector", true)] := by
  refine ⟨?_, ?_, ?_, ?_, ?_, rfl⟩
  · simp [create_classroom_post, hadm, create_classroom, equipFlags]
  · intro c hc
    simp [edit_classroom_post, hadm, update_classroom, hc, equipFlags]
  · intro k v hkv
    cases p <;> cases w <;> simp [equipFlags] at hkv <;>
      first
      | exact hkv.2
      | (rcases hkv with hkv | hkv <;> exact hkv.2)
  · cases p <;> cases w <;> simp [equipFlags]
  · cases p <;> cases w <;> simp [equipFlags]

/-- Witness for C8: an admin creating a classroom with projector=true,
whiteboard=false stores equipment exactly \x7bprojector: true\x7d. -/
theorem C8_equipment_exact_witness :
    (create_classroom_post [("root", ⟨"pw", Role.Admin⟩)] ⟨some "root", some Role.Admin⟩
      ⟨1, []⟩ "Lab1" "Bldg A" 30 true false).2.rooms =
      [(1, ⟨"Lab1", "Bldg A", 30, [("projector", true)]⟩)] :=
  (C8_equipment_exact [("root", ⟨"pw", Role.Admin⟩)] ⟨some "root", some Role.Admin⟩
    ⟨1, []⟩ 0 "Lab1" "Bldg A" 30 true false ⟨"root", Role.Admin⟩ rfl).1

/-- Claim C9: for an admin, editing or deleting a classroom id the
store does not hold yields HTTP 404 with the Classroom Store unchanged,
while an existing id yields a redirect to /classrooms with HTTP 303. -/
theorem C9_edit_delete_missing (ustore : UserStore) (session : Session)
    (cstore : ClassroomStore) (cid : Nat) (name location : String)
    (capacity : Int) (p w : Bool) (cu : CurrentUser)
    (hadm : require_admin ustore session = .ok cu) :
    (get_classroom cstore cid = none →
      edit_classroom_post ustore session cstore cid name location capacity p w =
        (.err 404 "강의실을 찾을 수 없습니다.", cstore) ∧
      delete_classroom_post ustore session cstore cid =
        (.err 404 "강의실을 찾을 수 없습니다.", cstore)) ∧
    (∀ c, get_classroom cstore cid = some c →
      (edit_classroom_post ustore session cstore cid name location capacity p w).1 =
        .redirect "/classrooms" 303 ∧
      (delete_classroom_post ustore session cstore cid).1 =
        .redirect "/classrooms" 303) := by
  constructor
  · intro habs
    constructor
    · simp [edit_classroom_post, hadm, update_classroom, habs]
    · simp [delete_classroom_post, hadm, delete_classroom, habs]
  · intro c hc
    constructor
    · simp [edit_classroom_post, hadm, update_classroom, hc]
    · simp [delete_classroom_post, hadm, delete_classroom, hc]

/-- Witness for C9: deleting the missing id 5 gives 404 and leaves the
store unchanged; deleting the present id 1 redirects with 303. -/
theorem C9_edit_delete_missing_witness :
    delete_classroom_post [("root", ⟨"pw", Role.Admin⟩)] ⟨some "root", some Role.Admin⟩
      ⟨2, [(1, ⟨"Lab1", "B", 30, []⟩)]⟩ 5 =
      (.err 404 "강의실을 찾을 수 없습니다.", ⟨2, [(1, ⟨"Lab1", "B", 30, []⟩)]⟩) ∧
    (delete_classroom_post [("root", ⟨"pw", Role.Admin⟩)] ⟨some "root", some Role.Admin⟩
      ⟨2, [(1, ⟨"Lab1", "B", 30, []⟩)]⟩ 1).1 = .redirect "/classrooms" 303 := by
  constructor
  · exact ((C9_edit_delete_missing [("root", ⟨"pw", Role.Admin⟩)]
      ⟨some "root", some Role.Admin⟩ ⟨2, [(1, ⟨"Lab1", "B", 30, []⟩)]⟩ 5 "n" "l" 1
      true false ⟨"root", Role.Admin⟩ rfl).1 rfl).2
  · exact ((C9_edit_delete_missing [("root", ⟨"pw", Role.Admin⟩)]
      ⟨some "root", some Role.Admin⟩ ⟨2, [(1, ⟨"Lab1", "B", 30, []⟩)]⟩ 1 "n" "l" 1
      true false ⟨"root", Role.Admin⟩ rfl).2 ⟨"Lab1", "B", 30, []⟩ rfl).2

/-- Claim C10: when the session yields no user or a non-Admin user, the
mutating classroom endpoints return the guard's HTTP error and leave
the Classroom Store exactly as it was: no create, update, or delete
ever happens on a request that fails authorization. -/
theorem C10_guard_precedes_store (ustore : UserStore) (session : Session)
    (cstore : ClassroomStore) (cid : Nat) (name location : String)
    (capacity : Int) (p w : Bool) :
    (get_current_user ustore session = none →
      create_classroom_post ustore session cstore name location capacity p w =
        (.err 401 "로그인이 필요합니다.", cstore) ∧
      edit_classroom_post ustore session cstore cid name location capacity p w =
        (.err 401 "로그인이 필요합니다.", cstore) ∧
      delete_classroom_post ustore session cstore cid =
        (.err 401 "로그인이 필요합니다.", cstore)) ∧
    (∀ u, get_current_user ustore session = some u → u.role ≠ Role.Admin →
      create_classroom_post ustore session cstore name location capacity p w =
        (.err 403 "관리자 권한이 필요합니다.", cstore) ∧
      edit_classroom_post ustore session cstore cid name location capacity p w =
        (.err 403 "관리자 권한이 필요합니다.", cstore) ∧
      delete_classroom_post ustore session cstore cid =
        (.err 403 "관리자 권한이 필요합니다.", cstore)) := by
  constructor
  · intro h
    simp [create_classroom_post, edit_classroom_post, delete_classroom_post,
      require_admin, require_auth, h]
  · intro u hu hrole
    simp [create_classroom_post, edit_classroom_post, delete_classroom_post,
      require_admin, require_auth, hu, hrole]

/-- Witness for C10: a Student-session create request errors with 403
and the one-room store is exactly as before. -/
theorem C10_guard_precedes_store_witness :
    create_classroom_post [("bob", ⟨"pw", Role.Student⟩)] ⟨some "bob", some Role.Student⟩
      ⟨2, [(1, ⟨"Lab1", "B", 30, []⟩)]⟩ "X" "Y" 10 true true =
      (.err 403 "관리자 권한이 필요합니다.", ⟨2, [(1, ⟨"Lab1", "B", 30, []⟩)]⟩) :=
  ((C10_guard_precedes_store [("bob", ⟨"pw", Role.Student⟩)]
    ⟨some "bob", some Role.Student⟩ ⟨2, [(1, ⟨"Lab1", "B", 30, []⟩)]⟩ 0 "X" "Y" 10
    true true).2 ⟨"bob", Role.Student⟩ rfl (by decide)).1
